import Mathlib

/-!
Verification of the controller runtime core of easykube
(src/easykube/kubernetes/runtime/controller.py) against its
natural-language specification.

The controller code is embedded shallowly: the reconcile outcome of one
attempt (a returned `Result`, `None`, a non-cancellation exception, or a
cancellation) is an explicit inductive input, the random jitter is an
explicit rational parameter, and the calls the handler makes on the queue
are the explicit output.  The `Request`, `Result` and `WorkerPool` types
live in modules that are not part of the sources at hand, so they are
modelled from the specification (section 3 and section 4.4), as marked on
each definition.
-/

namespace Easykube

/-- Modelled from the spec (section 3): a `Request` is an immutable value
identifying an object by namespace + name; the namespace may be absent for
cluster-scoped objects.  The process-local `id` is used only for logging
and never for equality, so it is omitted here.  The field `ns` stands for
the source's `namespace`, which is a reserved word in Lean. -/
structure Request where
  name : String
  ns : Option String
deriving DecidableEq, Repr

/-- Modelled from the spec (section 3): `Result = { requeue: bool,
requeue_after: duration? }`.  Durations are rationals so that adding the
sub-second jitter is exact. -/
structure Result where
  requeue : Bool
  requeue_after : Option ℚ
deriving DecidableEq, Repr

/-- Modelled from the spec (section 3): `requeue_after` being set implies
`requeue: true`. -/
def Result.valid (r : Result) : Prop :=
  r.requeue_after.isSome → r.requeue = true

/-- In the source the branch on `requeue_after` is the Python truthiness
test `if result.requeue_after:`, which is false both for `None` and for a
zero duration. -/
def Result.afterTruthy (r : Result) : Bool :=
  match r.requeue_after with
  | none => false
  | some d => d != 0

/-- Modelled from the spec (section 4.4): a pool of fixed capacity; the
internal free-list is irrelevant to the claims, only the capacity it was
constructed with is kept. -/
structure WorkerPool where
  capacity : ℕ
deriving DecidableEq, Repr

/-- The outcome of one call of the user-supplied reconcile function, as
observed by `_handle_request`: a normal return (possibly `None`), a
non-cancellation exception, or an `asyncio.CancelledError`. -/
inductive ReconcileOutcome where
  | success (r : Option Result)
  | failure
  | cancelled
deriving DecidableEq, Repr

/-- A call made on the queue by `_handle_request`. -/
inductive QueueCall where
  | requeue (request : Request) (attempt : ℤ) (delay : ℚ)
  | processingComplete (request : Request)
deriving DecidableEq, Repr

/-- How one invocation of `_handle_request` terminates: normal completion
with the list of queue calls it made, or re-raising a cancellation (in
which case it made no queue call at all). -/
inductive HandleResult where
  | completed (calls : List QueueCall)
  | cancelledRaised
deriving DecidableEq, Repr

/-- The tail of `_handle_request` (controller.py lines 153-168): given the
result of the reconcile attempt, decide between `queue.requeue` and
`queue.processing_complete`.  Mirrors

    if result.requeue:
        if result.requeue_after:
            delay = result.requeue_after
            attempt = -1
        else:
            delay = min(2**attempt, self._requeue_max_backoff)
        delay = delay + random.uniform(0, 1)
        queue.requeue(request, attempt + 1, delay)
    else:
        queue.processing_complete(request)

with the jitter `random.uniform(0, 1)` passed in explicitly. -/
def settleResult (requeueMaxBackoff : ℕ) (request : Request) (attempt : ℕ)
    (result : Result) (jitter : ℚ) : QueueCall :=
  if result.requeue then
    let p : ℚ × ℤ :=
      if result.afterTruthy then
        (result.requeue_after.getD 0, -1)
      else
        (min ((2 : ℚ) ^ attempt) (requeueMaxBackoff : ℚ), (attempt : ℤ))
    QueueCall.requeue request (p.2 + 1) (p.1 + jitter)
  else
    QueueCall.processingComplete request

/-- `Controller._handle_request` (controller.py lines 127-168).  The try
block is represented by the `ReconcileOutcome`: a cancellation is
re-raised before any queue interaction, a non-cancellation exception is
logged and replaced by `Result(True)`, and a `None` return is replaced by
the default `Result()` = `{requeue: false, requeue_after: none}`. -/
def handle_request (requeueMaxBackoff : ℕ) (request : Request) (attempt : ℕ)
    (outcome : ReconcileOutcome) (jitter : ℚ) : HandleResult :=
  match outcome with
  | .cancelled => .cancelledRaised
  | .failure =>
      .completed [settleResult requeueMaxBackoff request attempt ⟨true, none⟩ jitter]
  | .success r =>
      .completed [settleResult requeueMaxBackoff request attempt (r.getD ⟨false, none⟩) jitter]

/-- An owner reference as read by the `owns` mapper:
`{apiVersion, kind, name, controller?}` (the `uid` is never read). -/
structure OwnerRef where
  apiVersion : String
  kind : String
  name : String
  controller : Option Bool
deriving DecidableEq, Repr

/-- The metadata fields the controller's mappers read:
`obj["metadata"]["name"]`, `obj["metadata"].get("namespace")` and
`obj["metadata"].get("ownerReferences", [])`.  `ownerReferences` is an
`Option` so that an object without the key is distinct from one with an
empty list. -/
structure ObjMeta where
  name : String
  ns : Option String
  ownerReferences : Option (List OwnerRef)
deriving DecidableEq, Repr

/-- A Kubernetes object as consumed by the mappers. -/
structure K8sObject where
  metadata : ObjMeta
deriving DecidableEq, Repr

/-- The mapper installed by `Controller.__init__` for the primary watch
(controller.py lines 48-53):
`lambda obj: [Request(obj["metadata"]["name"], obj["metadata"].get("namespace"))]`. -/
def primaryMapper (obj : K8sObject) : List Request :=
  [{ name := obj.metadata.name, ns := obj.metadata.ns }]

/-- The predicate of the `owns` mapper's comprehension filter
(controller.py lines 77-81). -/
def ownsRefMatches (selfApiVersion selfKind : String) (controllerOnly : Bool)
    (ref : OwnerRef) : Bool :=
  ref.apiVersion == selfApiVersion && ref.kind == selfKind &&
    (!controllerOnly || ref.controller.getD false)

/-- The mapper installed by `Controller.owns` (controller.py lines 74-82):

    lambda obj: [
        Request(ref["name"], obj["metadata"].get("namespace"))
        for ref in obj["metadata"].get("ownerReferences", [])
        if (
            ref["apiVersion"] == self._api_version and
            ref["kind"] == self._kind and
            (not controller_only or ref.get("controller", False))
        )
    ]
-/
def ownsMapper (selfApiVersion selfKind : String) (controllerOnly : Bool)
    (obj : K8sObject) : List Request :=
  ((obj.metadata.ownerReferences.getD []).filter
      (ownsRefMatches selfApiVersion selfKind controllerOnly)).map
    (fun ref => { name := ref.name, ns := obj.metadata.ns })

/-- The controller state set up by `Controller.__init__` that the claims
observe: identity, worker pool, backoff cap, and the mappers of the
registered watches (label selectors and namespaces are not modelled; no
claim mentions them). -/
structure Controller where
  api_version : String
  kind : String
  ns : Option String
  worker_pool : WorkerPool
  requeue_max_backoff : ℕ
  watchMappers : List (K8sObject → List Request)

/-- The default of the `worker_count` keyword argument of
`Controller.__init__`. -/
def defaultWorkerCount : ℕ := 10

/-- The default of the `requeue_max_backoff` keyword argument of
`Controller.__init__`. -/
def defaultRequeueMaxBackoff : ℕ := 120

/-- `Controller.__init__` (controller.py lines 26-57).  The expression
`worker_pool or WorkerPool(worker_count)` keeps a passed pool (a plain
object, hence truthy) and constructs a fresh pool of capacity
`worker_count` only when the argument is `None`. -/
def Controller.init (api_version kind : String) (ns : Option String)
    (worker_count : ℕ) (worker_pool : Option WorkerPool)
    (requeue_max_backoff : ℕ) : Controller :=
  { api_version := api_version
    kind := kind
    ns := ns
    worker_pool := worker_pool.getD ⟨worker_count⟩
    requeue_max_backoff := requeue_max_backoff
    watchMappers := [primaryMapper] }

/-- `Controller.owns` (controller.py lines 59-86): appends a watch whose
mapper walks the owner references against the controller's own
`api_version` and `kind`. -/
def Controller.owns (c : Controller) (api_version kind : String)
    (controller_only : Bool) : Controller :=
  { c with
      watchMappers :=
        c.watchMappers ++ [ownsMapper c.api_version c.kind controller_only] }

/-- One observable step of the dispatch loop `Controller._dispatch`
(controller.py lines 174-183). -/
inductive DispatchEvent where
  | checkElig (result : Bool)
  | sleep
  | reserve
  | dequeue
  | setTask
deriving DecidableEq, Repr

/-- One iteration of the dispatch loop (controller.py lines 174-183),
as the trace of operations it performs.  `elig` is the stream of answers
the successive `queue.has_eligible_request()` calls return; if the stream
is exhausted before an answer is `true` the iteration has not completed
(`none`), mirroring the unbounded spin

    while not queue.has_eligible_request():
        await asyncio.sleep(0.1)
    worker = await self._worker_pool.reserve()
    request, attempt = await queue.dequeue()
    worker.set_task(...)
-/
def dispatchIterTrace : List Bool → Option (List DispatchEvent)
  | [] => none
  | b :: rest =>
      if b then
        some [DispatchEvent.checkElig true, DispatchEvent.reserve,
              DispatchEvent.dequeue, DispatchEvent.setTask]
      else
        (dispatchIterTrace rest).map
          (fun tr => DispatchEvent.checkElig false :: DispatchEvent.sleep :: tr)

end Easykube

namespace Easykube

/-- Claim C1: if the reconcile function raises a non-cancellation
exception, `_handle_request` catches it and proceeds exactly as for a
returned `Result(True)` — so `queue.requeue` is called and nothing
escapes; if it raises a cancellation, the cancellation is re-raised and no
queue call (`requeue` or `processing_complete`) is made. -/
theorem handle_request_exception_handling (maxB : ℕ) (req : Request)
    (attempt : ℕ) (jitter : ℚ) :
    (handle_request maxB req attempt .failure jitter
        = handle_request maxB req attempt (.success (some ⟨true, none⟩)) jitter
      ∧ ∃ a d, handle_request maxB req attempt .failure jitter
          = .completed [QueueCall.requeue req a d])
    ∧ handle_request maxB req attempt .cancelled jitter = .cancelledRaised := by
  exact ⟨⟨rfl, ⟨(attempt : ℤ) + 1,
    min ((2 : ℚ) ^ attempt) (maxB : ℚ) + jitter, rfl⟩⟩, rfl⟩

/-- Claim C2: on an exception, or on a returned result with
`requeue: true` and no `requeue_after`, the request is requeued with delay
`min(2^attempt, requeue_max_backoff)` plus the jitter from `[0, 1)`, at
`attempt + 1`. -/
theorem handle_request_backoff (maxB : ℕ) (req : Request) (attempt : ℕ)
    (jitter : ℚ) (h0 : 0 ≤ jitter) (h1 : jitter < 1) (result : Result)
    (hr : result.requeue = true) (ha : result.requeue_after = none) :
    handle_request maxB req attempt (.success (some result)) jitter
        = .completed [QueueCall.requeue req ((attempt : ℤ) + 1)
            (min ((2 : ℚ) ^ attempt) (maxB : ℚ) + jitter)]
      ∧ handle_request maxB req attempt .failure jitter
        = .completed [QueueCall.requeue req ((attempt : ℤ) + 1)
            (min ((2 : ℚ) ^ attempt) (maxB : ℚ) + jitter)] := by
  have haf : result.afterTruthy = false := by
    simp [Result.afterTruthy, ha]
  exact ⟨by simp [handle_request, settleResult, hr, haf], rfl⟩

theorem handle_request_backoff_witness :
    handle_request 120 ⟨"x", some "ns"⟩ 3
        (.success (some ⟨true, none⟩)) (1/2)
      = .completed [QueueCall.requeue ⟨"x", some "ns"⟩ ((3 : ℤ) + 1)
          (min ((2 : ℚ) ^ (3 : ℕ)) ((120 : ℕ) : ℚ) + 1/2)] :=
  (handle_request_backoff 120 ⟨"x", some "ns"⟩ 3 (1/2)
    (by norm_num) (by norm_num) ⟨true, none⟩ rfl rfl).1

/-- Claim C3 counterexample: a result with `requeue_after` set to the
duration 0 does not take the explicit-delay branch (Python truthiness of
`if result.requeue_after:`): dequeued at attempt 3 the code requeues at
attempt 4 with the exponential delay, not at attempt 0. -/
theorem handle_request_requeue_after_zero :
    handle_request 120 ⟨"x", none⟩ 3
        (.success (some ⟨true, some 0⟩)) (1/2)
      = .completed [QueueCall.requeue ⟨"x", none⟩ 4 (17/2)]
    ∧ (4 : ℤ) ≠ 0 := by
  constructor
  · simp [handle_request, settleResult, Result.afterTruthy]
    norm_num
  · decide

/-- Claim C3 (amended): for every reconcile attempt that returns a
spec-valid result with `requeue_after = d` set to a nonzero (truthy)
duration, `_handle_request` calls `queue.requeue` with attempt 0
(regardless of the attempt it was dequeued with) and delay `d` plus the
jitter from `[0, 1)`. -/
theorem handle_request_requeue_after (maxB : ℕ) (req : Request)
    (attempt : ℕ) (jitter d : ℚ) (h0 : 0 ≤ jitter) (h1 : jitter < 1)
    (result : Result) (hv : result.valid)
    (ha : result.requeue_after = some d) (hd : d ≠ 0) :
    handle_request maxB req attempt (.success (some result)) jitter
      = .completed [QueueCall.requeue req 0 (d + jitter)] := by
  have hr : result.requeue = true := hv (by simp [ha])
  have haf : result.afterTruthy = true := by
    simp [Result.afterTruthy, ha, hd]
  simp [handle_request, settleResult, hr, haf, ha]

theorem handle_request_requeue_after_witness :
    handle_request 120 ⟨"x", none⟩ 3
        (.success (some ⟨true, some 5⟩)) (1/2)
      = .completed [QueueCall.requeue ⟨"x", none⟩ 0 ((5 : ℚ) + 1/2)] :=
  handle_request_requeue_after 120 ⟨"x", none⟩ 3 (1/2) 5
    (by norm_num) (by norm_num) ⟨true, some 5⟩
    (fun _ => rfl) rfl (by norm_num)

/-- Claim C4: a `None` return or a result with `requeue: false` leads to
exactly one queue call, `processing_complete(request)`, and no `requeue`;
the `None` case is handled identically to `{requeue: false}` via
`result = result or Result()`. -/
theorem handle_request_success_complete (maxB : ℕ) (req : Request)
    (attempt : ℕ) (jitter : ℚ) (ra : Option ℚ) :
    handle_request maxB req attempt (.success none) jitter
        = .completed [QueueCall.processingComplete req]
      ∧ handle_request maxB req attempt (.success (some ⟨false, ra⟩)) jitter
        = .completed [QueueCall.processingComplete req]
      ∧ handle_request maxB req attempt (.success none) jitter
        = handle_request maxB req attempt (.success (some ⟨false, none⟩)) jitter := by
  exact ⟨rfl, rfl, rfl⟩

/-- Claim C8 counterexample: when `requeue_after` is set explicitly the
attempt passed to `queue.requeue` is 0 (the local `attempt` is reset to -1
and the call passes `attempt + 1`), not -1. -/
theorem handle_request_attempt_not_minus_one :
    handle_request 120 ⟨"x", none⟩ 3
        (.success (some ⟨true, some 5⟩)) (1/2)
      = .completed [QueueCall.requeue ⟨"x", none⟩ 0 (11/2)]
    ∧ (0 : ℤ) ≠ -1 := by
  constructor
  · simp [handle_request, settleResult, Result.afterTruthy]
    norm_num
  · decide

/-- Claim C8 (amended): whenever `result.requeue` is true,
`_handle_request` calls `queue.requeue(request, a, delay)` where the
passed attempt `a` is `attempt + 1` for exponential-backoff retries
(exceptions included) and 0 when a truthy `requeue_after` was set
explicitly. -/
theorem handle_request_attempt_passed (maxB : ℕ) (req : Request)
    (attempt : ℕ) (jitter : ℚ) (result : Result)
    (hr : result.requeue = true) :
    (∃ delay, handle_request maxB req attempt (.success (some result)) jitter
        = .completed [QueueCall.requeue req
            (if result.afterTruthy then 0 else (attempt : ℤ) + 1) delay])
    ∧ (∃ delay, handle_request maxB req attempt .failure jitter
        = .completed [QueueCall.requeue req ((attempt : ℤ) + 1) delay]) := by
  constructor
  · by_cases haf : result.afterTruthy = true
    · exact ⟨result.requeue_after.getD 0 + jitter,
        by simp [handle_request, settleResult, hr, haf]⟩
    · have haf' : result.afterTruthy = false := by
        simpa using haf
      exact ⟨min ((2 : ℚ) ^ attempt) (maxB : ℚ) + jitter,
        by simp [handle_request, settleResult, hr, haf']⟩
  · exact ⟨min ((2 : ℚ) ^ attempt) (maxB : ℚ) + jitter, rfl⟩

theorem handle_request_attempt_passed_witness :
    (⟨true, some 5⟩ : Result).requeue = true
    ∧ ((∃ delay, handle_request 120 ⟨"x", none⟩ 3
          (.success (some ⟨true, some 5⟩)) (1/2)
        = .completed [QueueCall.requeue ⟨"x", none⟩
            (if (⟨true, some 5⟩ : Result).afterTruthy then 0 else (3 : ℤ) + 1) delay])
      ∧ (∃ delay, handle_request 120 ⟨"x", none⟩ 3 .failure (1/2)
          = .completed [QueueCall.requeue ⟨"x", none⟩ ((3 : ℤ) + 1) delay])) :=
  ⟨rfl, handle_request_attempt_passed 120 ⟨"x", none⟩ 3 (1/2) ⟨true, some 5⟩ rfl⟩

end Easykube

namespace Easykube

/-- Claim C5: every completed iteration of the dispatch loop is some
number of failed eligibility checks (each followed by a sleep), then an
eligibility check answering true, then the worker reservation, then the
dequeue, then handing the request to the worker — in that strict order.
In particular the reservation precedes the dequeue, and the eligibility
check immediately preceding the reservation and dequeue returned true. -/
theorem dispatch_iteration_order (elig : List Bool)
    (tr : List DispatchEvent) (h : dispatchIterTrace elig = some tr) :
    ∃ n, tr
      = (List.replicate n [DispatchEvent.checkElig false, DispatchEvent.sleep]).flatten
        ++ [DispatchEvent.checkElig true, DispatchEvent.reserve,
            DispatchEvent.dequeue, DispatchEvent.setTask] := by
  induction elig generalizing tr with
  | nil => exact absurd h (by simp [dispatchIterTrace])
  | cons b rest ih =>
    cases b with
    | true =>
      simp [dispatchIterTrace] at h
      exact ⟨0, by simp [h.symm]⟩
    | false =>
      simp [dispatchIterTrace, Option.map_eq_some'] at h
      obtain ⟨tr', htr', rfl⟩ := h
      obtain ⟨n, rfl⟩ := ih tr' htr'
      exact ⟨n + 1, by simp [List.replicate_succ]⟩

theorem dispatch_iteration_order_witness :
    ∃ n, ([DispatchEvent.checkElig false, DispatchEvent.sleep,
          DispatchEvent.checkElig true, DispatchEvent.reserve,
          DispatchEvent.dequeue, DispatchEvent.setTask])
      = (List.replicate n [DispatchEvent.checkElig false, DispatchEvent.sleep]).flatten
        ++ [DispatchEvent.checkElig true, DispatchEvent.reserve,
            DispatchEvent.dequeue, DispatchEvent.setTask] :=
  dispatch_iteration_order [false, true] _ rfl

/-- Claim C6: the `owns` mapper emits exactly one Request per owner
reference matching the controller's `api_version` and `kind` (and, when
`controller_only`, with the controller flag set); the emitted names are
exactly the matching references' names in order, and a child with a
single matching reference to a parent yields exactly one Request for that
parent, whatever the child's own name. -/
theorem owns_mapper_matching_refs (av k : String) (co : Bool)
    (obj : K8sObject) :
    ((ownsMapper av k co obj).length
        = (obj.metadata.ownerReferences.getD []).countP (ownsRefMatches av k co)
      ∧ (ownsMapper av k co obj).map Request.name
        = ((obj.metadata.ownerReferences.getD []).filter
            (ownsRefMatches av k co)).map OwnerRef.name)
    ∧ (∀ (c : Controller) (watchedAv watchedKind : String),
        (c.owns watchedAv watchedKind co).watchMappers
          = c.watchMappers ++ [ownsMapper c.api_version c.kind co])
    ∧ ∀ (childName refName : String) (ns : Option String),
        ownsMapper av k true ⟨⟨childName, ns, some [⟨av, k, refName, some true⟩]⟩⟩
          = [⟨refName, ns⟩] := by
  refine ⟨⟨?_, ?_⟩, fun c _ _ => rfl, ?_⟩
  · simp [ownsMapper, List.countP_eq_length_filter]
  · simp [ownsMapper, List.map_map]
  · intro childName refName ns
    simp [ownsMapper, ownsRefMatches]

/-- Claim C7: the primary watch mapper emits exactly one Request whose
name is the object's `metadata.name` and whose namespace is the object's
`metadata.namespace` (absent for cluster-scoped objects); it is the sole
mapper installed by the constructor. -/
theorem primary_mapper_single_request (av k : String) (ns : Option String)
    (wc : ℕ) (wp : Option WorkerPool) (mb : ℕ) (obj : K8sObject) :
    (Controller.init av k ns wc wp mb).watchMappers = [primaryMapper]
      ∧ (primaryMapper obj).length = 1
      ∧ primaryMapper obj = [{ name := obj.metadata.name, ns := obj.metadata.ns }] :=
  ⟨rfl, rfl, rfl⟩

/-- Claim C9: an object whose metadata has no `ownerReferences` key yields
no Requests, and under the default `controller_only = true` a matching
owner reference whose `controller` key is absent or false is skipped. -/
theorem owns_mapper_controller_only (av k childName refName : String)
    (ns : Option String) :
    ownsMapper av k true ⟨⟨childName, ns, none⟩⟩ = []
      ∧ ownsMapper av k true ⟨⟨childName, ns, some [⟨av, k, refName, none⟩]⟩⟩ = []
      ∧ ownsMapper av k true ⟨⟨childName, ns, some [⟨av, k, refName, some false⟩]⟩⟩ = [] := by
  refine ⟨rfl, ?_, ?_⟩ <;> simp [ownsMapper, ownsRefMatches]

/-- Claim C10: a worker pool passed to the constructor is used as-is and
`worker_count` is ignored; a fresh pool of capacity `worker_count`
(default 10) is built only when no pool is passed. -/
theorem controller_worker_pool_selection (av k : String)
    (ns : Option String) (wc mb : ℕ) (wp : WorkerPool) :
    (Controller.init av k ns wc (some wp) mb).worker_pool = wp
      ∧ (Controller.init av k ns wc none mb).worker_pool = ⟨wc⟩
      ∧ (Controller.init av k ns defaultWorkerCount none mb).worker_pool = ⟨10⟩ :=
  ⟨rfl, rfl, rfl⟩

end Easykube
